import Mathlib

/-!
Verification of the metro-ticket-booking wallet/ledger core.

Shallow embedding of the monetary core of the repository:
  - `calculate_dynamic_fare` (src/app.py)
  - `api_book_ticket`, `api_cancel_ticket`, `api_recharge_wallet`,
    `api_recharge_metrocard` (src/app.py)
  - `User.recharge_wallet`, `User.deduct_from_wallet` (src/models.py)
  - `Ticket.cancel` (src/models.py)
  - `MetroCard.deduct`, `MetroCard._try_auto_recharge` (src/models.py)
  - `db.cancel_ticket` (src/db.py)

Modelling conventions:
  - Monetary amounts (Python floats in the source) are rationals `ℚ`.
  - Times are seconds as `ℚ`; a travel date is a day number `d : ℤ`, whose
    start-of-day instant (`datetime.combine(date, datetime.min.time())`)
    is `d * 86400` seconds.
  - The persistent store is a single-account state `St`; each database
    write that the source checks (or whose failure has a rollback path)
    takes a `Bool` parameter telling whether the write succeeds.
  - `math.sqrt` is an external numeric primitive; the embedding takes it
    as a function parameter `sqrtFn : ℚ → ℚ`, keeping everything
    computable.  No claim below depends on the value `sqrtFn` returns.
-/

/-- Python `round` on a rational: round half to even (banker's rounding). -/
def pyRound (q : ℚ) : ℤ :=
  let f := Int.floor q
  let frac := q - f
  if frac < 1/2 then f
  else if 1/2 < frac then f + 1
  else if f % 2 = 0 then f else f + 1

/-- Python `int()` on a rational: truncation toward zero. -/
def pyTrunc (q : ℚ) : ℤ :=
  if q < 0 then Int.ceil q else Int.floor q

/-- `db.get_station_location(name)`: look the station up by name,
returning its coordinates (src/db.py, `SELECT name, x, y FROM
station_locations WHERE name = %s`). The station table is an association
list from names to `(x, y)`. -/
def get_station_location (stations : List (String × ℚ × ℚ)) (name : String) :
    Option (ℚ × ℚ) :=
  (stations.find? (fun s => s.1 == name)).map (fun s => s.2)

/-- Step 2 of `calculate_dynamic_fare`:
`dist = math.sqrt((loc2['x']-loc1['x'])**2 + (loc2['y']-loc1['y'])**2) * 100`. -/
def distOf (sqrtFn : ℚ → ℚ) (loc1 loc2 : ℚ × ℚ) : ℚ :=
  sqrtFn ((loc2.1 - loc1.1)^2 + (loc2.2 - loc1.2)^2) * 100

/-- Step 5 of `calculate_dynamic_fare`, peak-hour test:
`(8 <= current_hour <= 10) or (17 <= current_hour <= 19)`. -/
def isPeakHour (hour : ℤ) : Bool :=
  (8 ≤ hour && hour ≤ 10) || (17 ≤ hour && hour ≤ 19)

/-- Steps 4–5 of `calculate_dynamic_fare`: `base_cost = 10.0 + dist * 5.0`,
multiplied by `1.25` during peak hours. -/
def baseCostOf (dist : ℚ) (hour : ℤ) : ℚ :=
  if isPeakHour hour then (10 + dist * 5) * (5/4) else 10 + dist * 5

/-- Rounding step of `calculate_dynamic_fare`:
`single_fare = max(10, round(base_cost / 5) * 5)`. -/
def singleFareOf (base_cost : ℚ) : ℚ :=
  max 10 ((pyRound (base_cost / 5) : ℚ) * 5)

/-- Step 3 of `calculate_dynamic_fare`:
`time_minutes = int((dist / 30) * 60) + 5`. -/
def etaOf (dist : ℚ) : ℤ :=
  pyTrunc (dist / 30 * 60) + 5

/-- `round(dist, 1)` in the return of `calculate_dynamic_fare`. -/
def roundTo1 (q : ℚ) : ℚ :=
  (pyRound (q * 10) : ℚ) / 10

/-- `calculate_dynamic_fare(source, destination, passengers)` from
src/app.py.  Returns `(total_fare, round(dist,1), time_minutes, is_peak)`.
If either station is unknown the degraded result
`(50.0 * passengers, 0.0, 0, False)` is returned.  `hour` stands for
`datetime.now().hour`. -/
def calculate_dynamic_fare (stations : List (String × ℚ × ℚ))
    (sqrtFn : ℚ → ℚ) (source destination : String) (passengers : ℤ)
    (hour : ℤ) : ℚ × ℚ × ℤ × Bool :=
  match get_station_location stations source,
        get_station_location stations destination with
  | some loc1, some loc2 =>
    let dist := distOf sqrtFn loc1 loc2
    let base_cost := baseCostOf dist hour
    let single_fare := singleFareOf base_cost
    let total_fare := single_fare * (passengers : ℚ)
    (total_fare, roundTo1 dist, etaOf dist, isPeakHour hour)
  | _, _ => (50 * (passengers : ℚ), 0, 0, false)

/-- One row of the `tickets` table. -/
structure TicketRow where
  tid : ℕ
  source : String
  destination : String
  passengers : ℤ
  fare : ℚ
  travelDate : ℤ
  distance : ℚ
  cancelled : Bool
deriving DecidableEq

/-- The persistent store for one account: wallet balance, ticket rows,
the auto-increment counter of the `tickets` table, and the account's
metro card (`balance`, `autoRechargeEnabled`, `minBalanceThreshold`). -/
structure St where
  wallet : ℚ
  tickets : List TicketRow
  nextId : ℕ
  card : ℚ
  cardAuto : Bool
  cardThreshold : ℚ
deriving DecidableEq

/-- Outcomes of `api_book_ticket` (src/app.py), one constructor per
distinct JSON error response plus the success response. -/
inductive BookResult where
  | missingStations
  | sameStation
  | invalidPassengerCount
  | invalidDate
  | insufficientFunds (required available : ℚ)
  | walletUpdateFailed
  | persistenceError
  | booked (tid : ℕ) (fare newBalance : ℚ)
deriving DecidableEq

/-- `api_book_ticket` from src/app.py.  `hour` is `datetime.now().hour`,
`today` is `date.today()` as a day number, `travelDate` is the parsed
travel date (`none` = `ValueError` from `strptime`).  `debitOk`,
`insertOk`, `restoreOk` tell whether the wallet-debit write, the ticket
insert, and the compensating wallet write succeed.  The loyalty-points /
notification block is best-effort on separate tables and is not part of
the modelled state. -/
def api_book_ticket (stations : List (String × ℚ × ℚ)) (sqrtFn : ℚ → ℚ)
    (hour today : ℤ) (debitOk insertOk restoreOk : Bool) (st : St)
    (source destination : String) (passengers : ℤ)
    (travelDate : Option ℤ) : BookResult × St :=
  if source = "" ∨ destination = "" then (.missingStations, st)
  else if source = destination then (.sameStation, st)
  else if passengers < 1 ∨ 6 < passengers then (.invalidPassengerCount, st)
  else
    match travelDate with
    | none => (.invalidDate, st)
    | some travel_date =>
      if travel_date < today then (.invalidDate, st)
      else
        let r := calculate_dynamic_fare stations sqrtFn source destination passengers hour
        let fare := r.1
        let distance := r.2.1
        if st.wallet < fare then (.insufficientFunds fare st.wallet, st)
        else
          let new_balance := st.wallet - fare
          if ¬debitOk then (.walletUpdateFailed, st)
          else
            let st1 := { st with wallet := new_balance }
            if insertOk then
              let row : TicketRow :=
                ⟨st1.nextId, source, destination, passengers, fare,
                 travel_date, distance, false⟩
              (.booked st1.nextId fare new_balance,
               { st1 with tickets := st1.tickets ++ [row],
                          nextId := st1.nextId + 1 })
            else
              -- `db.update_user_wallet_balance(user['username'],
              -- user['walletBalance'])`: write the pre-call balance back;
              -- the source ignores this call's return value.
              let st2 := if restoreOk then { st1 with wallet := st.wallet } else st1
              (.persistenceError, st2)

/-- The WHERE clause of the UPDATE in `db.cancel_ticket` (src/db.py):
`UPDATE tickets SET cancelled = TRUE WHERE ticketId = %s`.  A row is
selected by ticket id alone. -/
def cancelUpdateWhere (row : TicketRow) (tid : ℕ) : Bool :=
  row.tid == tid

/-- `db.cancel_ticket` from src/db.py.  Runs the UPDATE above, commits,
and returns `cursor.rowcount > 0`; the MySQL connector counts rows whose
value actually changed, so the result is true iff some selected row was
not yet cancelled.  `dbOk = false` is the `except Error` path (rollback,
return `False`). -/
def db_cancel_ticket (dbOk : Bool) (st : St) (tid : ℕ) : Bool × St :=
  if ¬dbOk then (false, st)
  else
    (st.tickets.any (fun t => cancelUpdateWhere t tid && !t.cancelled),
     { st with tickets :=
         st.tickets.map (fun t =>
           if cancelUpdateWhere t tid then { t with cancelled := true } else t) })

/-- The effect of the UPDATE in `db.cancel_ticket` on one row: a
selected row has its `cancelled` flag set. -/
def cancelFlag (tid : ℕ) (t : TicketRow) : TicketRow :=
  if cancelUpdateWhere t tid then { t with cancelled := true } else t

/-- Outcomes of `api_cancel_ticket` (src/app.py). -/
inductive CancelResult where
  | notFound
  | alreadyCancelled
  | dbCancelFailed
  | ok (refund newBalance : ℚ)
deriving DecidableEq

/-- `api_cancel_ticket` from src/app.py.  `now` is `datetime.now()` in
seconds; `travel_datetime` is midnight of the travel date
(`datetime.combine(travelDate, datetime.min.time())`).  The ownership
check is identically true in this single-account model.  `creditOk`
tells whether the refund's wallet write succeeds; the source ignores
that call's return value. -/
def api_cancel_ticket (now : ℚ) (dbOk creditOk : Bool) (st : St)
    (tid : ℕ) : CancelResult × St :=
  match st.tickets.find? (fun t => t.tid == tid) with
  | none => (.notFound, st)
  | some t =>
    if t.cancelled then (.alreadyCancelled, st)
    else
      let travel_datetime : ℚ := (t.travelDate : ℚ) * 86400
      let time_diff := travel_datetime - now
      let refund_rate : ℚ := if 24 * 60 * 60 ≤ time_diff then 8/10 else 5/10
      let refund := t.fare * refund_rate
      let res := db_cancel_ticket dbOk st tid
      if res.1 then
        let new_balance := st.wallet + refund
        let st2 := if creditOk then { res.2 with wallet := new_balance } else res.2
        (.ok refund new_balance, st2)
      else (.dbCancelFailed, res.2)

/-- `Ticket.cancel` from src/models.py: returns `(refund, cancelled)`.
An already-cancelled ticket yields refund `0`; otherwise the flag is set
and the refund is `fare * 0.8` when midnight of the travel date is at
least 24 hours away, else `fare * 0.5`. -/
def ticket_cancel (cancelled : Bool) (fare : ℚ) (travelDate : ℤ)
    (now : ℚ) : ℚ × Bool :=
  if cancelled then (0, cancelled)
  else
    let travel_datetime : ℚ := (travelDate : ℚ) * 86400
    let diff := travel_datetime - now
    if 24 * 60 * 60 ≤ diff then (fare * (8/10), true)
    else (fare * (5/10), true)

/-- Outcomes of `api_recharge_wallet` (src/app.py). -/
inductive RechargeResult where
  | amountNotPositive
  | dbFailed
  | ok (newBalance : ℚ)
deriving DecidableEq

/-- `api_recharge_wallet` from src/app.py: reject `amount <= 0`,
otherwise write `balance + amount` unconditionally (the wallet-history
insert is best-effort and not part of the modelled state).  Returns the
response and the resulting stored balance. -/
def api_recharge_wallet (dbOk : Bool) (wallet amount : ℚ) :
    RechargeResult × ℚ :=
  if amount ≤ 0 then (.amountNotPositive, wallet)
  else
    let new_balance := wallet + amount
    if dbOk then (.ok new_balance, new_balance) else (.dbFailed, wallet)

/-- `User.recharge_wallet` from src/models.py: rejects `amount <= 0` and
`amount > 5000`; on a failed database write the in-memory increment is
rolled back. -/
def user_recharge_wallet (dbOk : Bool) (wallet amount : ℚ) : Bool × ℚ :=
  if amount ≤ 0 then (false, wallet)
  else if 5000 < amount then (false, wallet)
  else if dbOk then (true, wallet + amount) else (false, wallet)

/-- `User.deduct_from_wallet` from src/models.py: rejects
`amount > wallet_balance`; on a failed database write the in-memory
decrement is rolled back. -/
def user_deduct_from_wallet (dbOk : Bool) (wallet amount : ℚ) : Bool × ℚ :=
  if wallet < amount then (false, wallet)
  else if dbOk then (true, wallet - amount) else (false, wallet)

/-- A metro card together with its owner's wallet balance
(`self.owner.wallet_balance` in src/models.py). -/
structure CardSt where
  wallet : ℚ
  card : ℚ
  autoRechargeEnabled : Bool
  minBalanceThreshold : ℚ
deriving DecidableEq

/-- `MetroCard._try_auto_recharge` from src/models.py (owner linked):
`recharge_amount = max(threshold * 2, 100)`; if the wallet holds at
least that much, debit the wallet and credit the card.  The
`db.update_metro_card` result is ignored by the source. -/
def card_try_auto_recharge (walletDbOk : Bool) (s : CardSt) :
    CardSt × Bool :=
  let recharge_amount := max (s.minBalanceThreshold * 2) 100
  if recharge_amount ≤ s.wallet then
    let d := user_deduct_from_wallet walletDbOk s.wallet recharge_amount
    if d.1 then
      ({ s with wallet := d.2, card := s.card + recharge_amount }, true)
    else ({ s with wallet := d.2 }, false)
  else (s, false)

/-- `MetroCard.deduct` from src/models.py: reject `fare > balance`;
otherwise debit the card and, if auto-recharge is enabled and the new
balance is below the threshold, run `_try_auto_recharge` once. -/
def card_deduct (walletDbOk : Bool) (s : CardSt) (fare : ℚ) :
    CardSt × Bool :=
  if s.card < fare then (s, false)
  else
    let s1 := { s with card := s.card - fare }
    if s1.autoRechargeEnabled ∧ s1.card < s1.minBalanceThreshold then
      ((card_try_auto_recharge walletDbOk s1).1, true)
    else (s1, true)

/-- `MetroCard.recharge` from src/models.py: reject `amount <= 0`; on a
failed database write the in-memory increment is rolled back. -/
def card_recharge (dbOk : Bool) (s : CardSt) (amount : ℚ) :
    CardSt × Bool :=
  if amount ≤ 0 then (s, false)
  else if dbOk then ({ s with card := s.card + amount }, true)
  else (s, false)

/-- One request against the store: the five operations of the invariant
claim, each carrying its per-call inputs and the success of its
database writes. -/
inductive Op where
  | book (stations : List (String × ℚ × ℚ)) (sqrtFn : ℚ → ℚ)
      (hour today : ℤ) (debitOk insertOk restoreOk : Bool)
      (source destination : String) (passengers : ℤ)
      (travelDate : Option ℤ)
  | cancel (tid : ℕ) (now : ℚ) (dbOk creditOk : Bool)
  | rechargeWallet (amount : ℚ) (dbOk : Bool)
  | rechargeCard (amount : ℚ) (dbOk : Bool)
  | debitCard (fare : ℚ) (walletDbOk : Bool)

/-- The card view of a store state. -/
def St.cardSt (st : St) : CardSt :=
  ⟨st.wallet, st.card, st.cardAuto, st.cardThreshold⟩

/-- Write a card view back into the store state. -/
def St.withCard (st : St) (c : CardSt) : St :=
  { st with wallet := c.wallet, card := c.card,
            cardAuto := c.autoRechargeEnabled,
            cardThreshold := c.minBalanceThreshold }

/-- Effect of one operation on the store. -/
def step (st : St) (op : Op) : St :=
  match op with
  | .book stations sqrtFn hour today dOk iOk rOk source destination p td =>
      (api_book_ticket stations sqrtFn hour today dOk iOk rOk st
        source destination p td).2
  | .cancel tid now dbOk creditOk =>
      (api_cancel_ticket now dbOk creditOk st tid).2
  | .rechargeWallet amount dbOk =>
      { st with wallet := (api_recharge_wallet dbOk st.wallet amount).2 }
  | .rechargeCard amount dbOk =>
      st.withCard (card_recharge dbOk st.cardSt amount).1
  | .debitCard fare walletDbOk =>
      st.withCard (card_deduct walletDbOk st.cardSt fare).1

/-- Run a sequence of operations. -/
def run (st : St) (ops : List Op) : St :=
  ops.foldl step st

/-- The monetary invariant: the wallet and card balances are
non-negative and every stored ticket has a non-negative fare. -/
def BalanceInv (st : St) : Prop :=
  0 ≤ st.wallet ∧ 0 ≤ st.card ∧ ∀ t ∈ st.tickets, 0 ≤ t.fare

/-! ## Claim theorems -/

/-- C9: for every passengers count, if either the source or the
destination station is unknown to the station store,
`calculate_dynamic_fare` returns fare `50.0 * passengers`, distance `0`,
ETA `0` and peak `false`. -/
theorem fare_unknown_station_fallback
    (stations : List (String × ℚ × ℚ)) (sqrtFn : ℚ → ℚ)
    (source destination : String) (passengers hour : ℤ)
    (h : get_station_location stations source = none ∨
         get_station_location stations destination = none) :
    calculate_dynamic_fare stations sqrtFn source destination passengers hour
      = (50 * (passengers : ℚ), 0, 0, false) := by
  unfold calculate_dynamic_fare
  rcases h with h | h <;>
    cases hs : get_station_location stations source <;>
    cases hd : get_station_location stations destination <;>
    simp_all

/-- Witness for C9: unknown destination `"zzz"` with 3 passengers. -/
theorem fare_unknown_station_fallback_witness :
    calculate_dynamic_fare [("a", 0, 0)] (fun q => q) "a" "zzz" 3 9
      = (150, 0, 0, false) := by
  have h := fare_unknown_station_fallback [("a", 0, 0)] (fun q => q) "a" "zzz" 3 9
    (Or.inr (by simp [get_station_location]))
  rw [h]; norm_num

/-- C4: for a non-cancelled ticket, the refund is `fare * 0.8` when
start-of-day of the travel date minus now is at least 24 hours
(including exactly 24 hours), and `fare * 0.5` otherwise (even one
second under 24 hours). -/
theorem cancel_refund_tier (cancelled : Bool) (fare : ℚ) (travelDate : ℤ)
    (now : ℚ) (hc : cancelled = false) :
    (86400 ≤ (travelDate : ℚ) * 86400 - now →
        (ticket_cancel cancelled fare travelDate now).1 = fare * (8/10)) ∧
    ((travelDate : ℚ) * 86400 - now < 86400 →
        (ticket_cancel cancelled fare travelDate now).1 = fare * (5/10)) := by
  subst hc
  have e : (24 * 60 * 60 : ℚ) = 86400 := by norm_num
  constructor <;> intro h
  · have hcond : (24 * 60 * 60 : ℚ) ≤ (travelDate : ℚ) * 86400 - now := by
      rw [e]; exact h
    simp [ticket_cancel, hcond]
  · have hcond : ¬ (24 * 60 * 60 : ℚ) ≤ (travelDate : ℚ) * 86400 - now := by
      rw [e]; exact not_le.mpr h
    simp [ticket_cancel, hcond]

/-- Witness for C4: fare 45, travel on day 2.  Cancelling exactly 24
hours before midnight of day 2 refunds `45 * 0.8`; one second later
refunds `45 * 0.5`. -/
theorem cancel_refund_tier_witness :
    (ticket_cancel false 45 2 86400).1 = 45 * (8/10) ∧
    (ticket_cancel false 45 2 86401).1 = 45 * (5/10) := by
  constructor
  · exact (cancel_refund_tier false 45 2 86400 rfl).1 (by norm_num)
  · exact (cancel_refund_tier false 45 2 86401 rfl).2 (by norm_num)

/-- C10 counterexample: `User.recharge_wallet` (src/models.py) rejects
amounts above 5000, so wallet recharge is not an unconditional credit
for every positive amount: with balance 100 and amount 6000 and a
healthy database the call fails and the balance is unchanged. -/
theorem recharge_wallet_cap_counterexample :
    ¬ (∀ wallet amount : ℚ, 0 < amount →
        user_recharge_wallet true wallet amount = (true, wallet + amount)) := by
  intro h
  have h6 := h 100 6000 (by norm_num)
  have hne : user_recharge_wallet true 100 6000 = (false, 100) := by
    norm_num [user_recharge_wallet]
  rw [hne] at h6
  simp at h6

/-- C10 (amended): `api_recharge_wallet` (src/app.py) credits any
positive amount unconditionally when the balance write succeeds, and
`User.recharge_wallet` (src/models.py) does so for positive amounts up
to its 5000 cap. -/
theorem recharge_wallet_amended (wallet amount : ℚ) (h : 0 < amount) :
    api_recharge_wallet true wallet amount
        = (.ok (wallet + amount), wallet + amount) ∧
    (amount ≤ 5000 →
        user_recharge_wallet true wallet amount = (true, wallet + amount)) := by
  have hn : ¬ amount ≤ 0 := not_le.mpr h
  refine ⟨?_, fun h5 => ?_⟩
  · simp [api_recharge_wallet, hn]
  · simp [user_recharge_wallet, hn, not_lt.mpr h5]

/-- Witness for C10 (amended): balance 100, amount 200. -/
theorem recharge_wallet_amended_witness :
    api_recharge_wallet true 100 200 = (.ok (100 + 200), 100 + 200) ∧
    user_recharge_wallet true 100 200 = (true, 100 + 200) := by
  have h := recharge_wallet_amended 100 200 (by norm_num)
  exact ⟨h.1, h.2 (by norm_num)⟩

/-- C6: when a booking request passes validation and the computed fare
exceeds the wallet balance, `api_book_ticket` answers
`InsufficientFunds` carrying the required and available amounts, and the
store is unchanged. -/
theorem book_insufficient_funds
    (stations : List (String × ℚ × ℚ)) (sqrtFn : ℚ → ℚ)
    (hour today : ℤ) (dOk iOk rOk : Bool) (st : St)
    (source destination : String) (p travel_date : ℤ)
    (hs : source ≠ "") (hd : destination ≠ "") (hsd : source ≠ destination)
    (hp1 : 1 ≤ p) (hp6 : p ≤ 6) (htd : today ≤ travel_date)
    (hfare : st.wallet <
        (calculate_dynamic_fare stations sqrtFn source destination p hour).1) :
    api_book_ticket stations sqrtFn hour today dOk iOk rOk st
        source destination p (some travel_date)
      = (.insufficientFunds
            (calculate_dynamic_fare stations sqrtFn source destination p hour).1
            st.wallet, st) := by
  simp [api_book_ticket, hs, hd, hsd, not_lt.mpr hp1, not_lt.mpr hp6,
        not_lt.mpr htd, hfare]

/-- Witness for C6: balance 10 against the flat fare 50. -/
theorem book_insufficient_funds_witness :
    api_book_ticket [] (fun q => q) 12 0 true true true
        ⟨10, [], 1, 0, false, 50⟩ "a" "b" 1 (some 1)
      = (.insufficientFunds
            (calculate_dynamic_fare [] (fun q => q) "a" "b" 1 12).1 10,
         ⟨10, [], 1, 0, false, 50⟩) := by
  exact book_insufficient_funds [] (fun q => q) 12 0 true true true
    ⟨10, [], 1, 0, false, 50⟩ "a" "b" 1 1
    (by decide) (by decide) (by decide) (by decide) (by decide) (by decide)
    (by norm_num [calculate_dynamic_fare, get_station_location])

/-- C2: if a booking passes validation and the balance check, the debit
write succeeds, the ticket insert fails, and the compensating write
succeeds, then `api_book_ticket` answers `PersistenceError` and the
store — in particular the wallet balance — is exactly its pre-call
value. -/
theorem book_rollback_on_insert_failure
    (stations : List (String × ℚ × ℚ)) (sqrtFn : ℚ → ℚ)
    (hour today : ℤ) (st : St)
    (source destination : String) (p travel_date : ℤ)
    (hs : source ≠ "") (hd : destination ≠ "") (hsd : source ≠ destination)
    (hp1 : 1 ≤ p) (hp6 : p ≤ 6) (htd : today ≤ travel_date)
    (hfare : (calculate_dynamic_fare stations sqrtFn source destination p hour).1
        ≤ st.wallet) :
    api_book_ticket stations sqrtFn hour today true false true st
        source destination p (some travel_date)
      = (.persistenceError, st) := by
  simp [api_book_ticket, hs, hd, hsd, not_lt.mpr hp1, not_lt.mpr hp6,
        not_lt.mpr htd, not_lt.mpr hfare]

/-- Witness for C2: balance 100, flat fare 50, failing ticket insert. -/
theorem book_rollback_on_insert_failure_witness :
    api_book_ticket [] (fun q => q) 12 0 true false true
        ⟨100, [], 1, 0, false, 50⟩ "a" "b" 1 (some 1)
      = (.persistenceError, ⟨100, [], 1, 0, false, 50⟩) := by
  exact book_rollback_on_insert_failure [] (fun q => q) 12 0
    ⟨100, [], 1, 0, false, 50⟩ "a" "b" 1 1
    (by decide) (by decide) (by decide) (by decide) (by decide) (by decide)
    (by norm_num [calculate_dynamic_fare, get_station_location])

/-- The rounded single fare is 5 times an integer. -/
theorem singleFareOf_eq_five_mul (bc : ℚ) :
    singleFareOf bc = 5 * ((max 2 (pyRound (bc / 5)) : ℤ) : ℚ) := by
  unfold singleFareOf
  rw [Int.cast_max]
  rw [mul_max_of_nonneg _ _ (by norm_num : (0:ℚ) ≤ 5)]
  norm_num [max_comm, mul_comm]

/-- C7: for known stations and a validated passenger count, the total
fare is the rounded single fare `max(10, round(baseCost/5)*5)` times the
passenger count; hence it is at least `10 * passengers`, and the
per-passenger fare is a multiple of 5. -/
theorem fare_rounding_structure
    (stations : List (String × ℚ × ℚ)) (sqrtFn : ℚ → ℚ)
    (source destination : String) (p hour : ℤ) (loc1 loc2 : ℚ × ℚ)
    (h1 : get_station_location stations source = some loc1)
    (h2 : get_station_location stations destination = some loc2)
    (hsd : source ≠ destination) (hp1 : 1 ≤ p) (hp6 : p ≤ 6) :
    (calculate_dynamic_fare stations sqrtFn source destination p hour).1
      = singleFareOf (baseCostOf (distOf sqrtFn loc1 loc2) hour) * (p : ℚ) ∧
    10 * (p : ℚ) ≤
      (calculate_dynamic_fare stations sqrtFn source destination p hour).1 ∧
    ∃ k : ℤ, singleFareOf (baseCostOf (distOf sqrtFn loc1 loc2) hour)
      = 5 * (k : ℚ) := by
  have he : (calculate_dynamic_fare stations sqrtFn source destination p hour).1
      = singleFareOf (baseCostOf (distOf sqrtFn loc1 loc2) hour) * (p : ℚ) := by
    simp [calculate_dynamic_fare, h1, h2]
  refine ⟨he, ?_, ?_⟩
  · rw [he]
    have h10 : (10 : ℚ) ≤ singleFareOf (baseCostOf (distOf sqrtFn loc1 loc2) hour) :=
      le_max_left _ _
    have hp : (1 : ℚ) ≤ (p : ℚ) := by exact_mod_cast hp1
    exact mul_le_mul_of_nonneg_right h10 (by linarith)
  · exact ⟨max 2 (pyRound (baseCostOf (distOf sqrtFn loc1 loc2) hour / 5)),
      singleFareOf_eq_five_mul _⟩

/-- Witness for C7: two known stations, 2 passengers, off-peak. -/
theorem fare_rounding_structure_witness :
    (calculate_dynamic_fare [("a", 0, 0), ("b", (3/100 : ℚ), 0)]
        (fun q => q) "a" "b" 2 12).1
      = singleFareOf (baseCostOf (distOf (fun q => q) (0, 0) ((3/100 : ℚ), 0)) 12)
          * ((2 : ℤ) : ℚ) ∧
    10 * ((2 : ℤ) : ℚ) ≤
      (calculate_dynamic_fare [("a", 0, 0), ("b", (3/100 : ℚ), 0)]
        (fun q => q) "a" "b" 2 12).1 ∧
    ∃ k : ℤ, singleFareOf (baseCostOf (distOf (fun q => q) (0, 0) ((3/100 : ℚ), 0)) 12)
      = 5 * (k : ℚ) := by
  exact fare_rounding_structure [("a", 0, 0), ("b", (3/100 : ℚ), 0)]
    (fun q => q) "a" "b" 2 12 (0, 0) ((3/100 : ℚ), 0)
    (by simp [get_station_location]) (by simp [get_station_location])
    (by decide) (by decide) (by decide)

/-- C8: a successful card debit that leaves the balance below the
threshold with auto-recharge enabled triggers exactly one auto-recharge
of `max(threshold * 2, 100)`: the wallet is debited and the card
credited by that amount when the wallet covers it, otherwise both are
left as after the plain debit; the wallet balance never becomes
negative. -/
theorem card_auto_recharge (s : CardSt) (fare : ℚ)
    (hf : fare ≤ s.card) (hauto : s.autoRechargeEnabled = true)
    (hlow : s.card - fare < s.minBalanceThreshold) :
    (max (s.minBalanceThreshold * 2) 100 ≤ s.wallet →
        card_deduct true s fare
          = (⟨s.wallet - max (s.minBalanceThreshold * 2) 100,
              s.card - fare + max (s.minBalanceThreshold * 2) 100,
              s.autoRechargeEnabled, s.minBalanceThreshold⟩, true)) ∧
    (s.wallet < max (s.minBalanceThreshold * 2) 100 →
        card_deduct true s fare
          = (⟨s.wallet, s.card - fare, s.autoRechargeEnabled,
              s.minBalanceThreshold⟩, true)) ∧
    (∀ wdb : Bool, 0 ≤ s.wallet → 0 ≤ (card_deduct wdb s fare).1.wallet) := by
  have hnc : ¬ s.card < fare := not_lt.mpr hf
  refine ⟨fun hge => ?_, fun hlt => ?_, fun wdb hw => ?_⟩
  · simp [card_deduct, hnc, hauto, hlow, card_try_auto_recharge,
      user_deduct_from_wallet, hge, not_lt.mpr hge]
  · simp [card_deduct, hnc, hauto, hlow, card_try_auto_recharge,
      not_le.mpr hlt]
  · by_cases hge : max (s.minBalanceThreshold * 2) 100 ≤ s.wallet
    · cases wdb
      · simp [card_deduct, hnc, hauto, hlow, card_try_auto_recharge,
          user_deduct_from_wallet, hge, not_lt.mpr hge, hw]
      · simp [card_deduct, hnc, hauto, hlow, card_try_auto_recharge,
          user_deduct_from_wallet, hge, not_lt.mpr hge]
    · simp [card_deduct, hnc, hauto, hlow, card_try_auto_recharge, hge, hw]

/-- Witness for C8, the spec's example: card 40, threshold 50,
auto-recharge on, wallet 200; debiting 5 auto-recharges 100, leaving
card 135 and wallet 100. -/
theorem card_auto_recharge_witness :
    card_deduct true ⟨200, 40, true, 50⟩ 5 = (⟨100, 135, true, 50⟩, true) := by
  have h := (card_auto_recharge ⟨200, 40, true, 50⟩ 5 (by norm_num) rfl
    (by norm_num)).1 (by norm_num)
  rw [h]
  norm_num

/-- `db.cancel_ticket` with a healthy connection: reports whether some
selected row actually changed, and sets the flag on every selected row. -/
theorem db_cancel_ticket_true_eq (st : St) (tid : ℕ) :
    db_cancel_ticket true st tid
      = (st.tickets.any (fun t => cancelUpdateWhere t tid && !t.cancelled),
         { st with tickets := st.tickets.map (cancelFlag tid) }) := by
  simp [db_cancel_ticket, cancelFlag]

/-- `cancelFlag` never changes the ticket id. -/
theorem cancelFlag_tid (tid : ℕ) (t : TicketRow) :
    (cancelFlag tid t).tid = t.tid := by
  unfold cancelFlag
  split <;> rfl

/-- Full description of a successful `api_cancel_ticket` call: the
response reports the refund and the credited balance, the ticket rows
for the id are flagged cancelled, and the wallet is credited exactly
when the balance write succeeds. -/
theorem cancel_success_eq (now : ℚ) (creditOk : Bool) (st : St) (tid : ℕ)
    (t : TicketRow)
    (hfind : st.tickets.find? (fun x => x.tid == tid) = some t)
    (hc : t.cancelled = false) :
    api_cancel_ticket now true creditOk st tid
      = (.ok (t.fare * (if 24 * 60 * 60 ≤ (t.travelDate : ℚ) * 86400 - now
                then 8/10 else 5/10))
             (st.wallet
               + t.fare * (if 24 * 60 * 60 ≤ (t.travelDate : ℚ) * 86400 - now
                   then 8/10 else 5/10)),
         { st with
             wallet := if creditOk then
                 st.wallet
                   + t.fare * (if 24 * 60 * 60 ≤ (t.travelDate : ℚ) * 86400 - now
                       then 8/10 else 5/10)
               else st.wallet,
             tickets := st.tickets.map (cancelFlag tid) }) := by
  have hmem := List.mem_of_find?_eq_some hfind
  have hpt : (t.tid == tid) = true := by
    simpa using List.find?_some hfind
  have hany : st.tickets.any (fun x => cancelUpdateWhere x tid && !x.cancelled)
      = true :=
    List.any_eq_true.mpr ⟨t, hmem, by simp [cancelUpdateWhere, hpt, hc]⟩
  simp only [api_cancel_ticket, hfind, hc, db_cancel_ticket_true_eq, hany]
  cases creditOk <;> simp

/-- After a successful cancellation the row for the id is found
cancelled. -/
theorem cancel_success_find (now : ℚ) (creditOk : Bool) (st : St) (tid : ℕ)
    (t : TicketRow)
    (hfind : st.tickets.find? (fun x => x.tid == tid) = some t)
    (hc : t.cancelled = false) :
    ((api_cancel_ticket now true creditOk st tid).2).tickets.find?
        (fun x => x.tid == tid)
      = some { t with cancelled := true } := by
  have hpt : (t.tid == tid) = true := by
    simpa using List.find?_some hfind
  rw [cancel_success_eq now creditOk st tid t hfind hc]
  have hpred : ((fun x : TicketRow => x.tid == tid) ∘ cancelFlag tid)
      = fun x => x.tid == tid := by
    funext x
    simp [Function.comp, cancelFlag_tid]
  simp only [List.find?_map, hpred, hfind, Option.map_some]
  simp [cancelFlag, cancelUpdateWhere, hpt]

/-- An already-cancelled row makes `api_cancel_ticket` answer
`AlreadyCancelled` and leave the store untouched. -/
theorem cancel_already_cancelled_eq (now : ℚ) (dbOk creditOk : Bool)
    (st : St) (tid : ℕ) (t : TicketRow)
    (hfind : st.tickets.find? (fun x => x.tid == tid) = some t)
    (hc : t.cancelled = true) :
    api_cancel_ticket now dbOk creditOk st tid = (.alreadyCancelled, st) := by
  simp [api_cancel_ticket, hfind, hc]

/-- C5 counterexample: the UPDATE of `db.cancel_ticket` selects rows by
ticket id alone — its WHERE clause is not conditional on
`cancelled = false`: it also selects a row that is already cancelled. -/
theorem cancel_update_unconditional_counterexample :
    ¬ (∀ (row : TicketRow) (tid : ℕ),
        cancelUpdateWhere row tid = true → row.cancelled = false) := by
  intro h
  simpa using h ⟨1, "a", "b", 1, 45, 2, 0, true⟩ 1 rfl

/-- C5 (amended): `AlreadyCancelled` comes from a read of the ticket
before the update rather than from the update's row count, but
sequentially the outcome claimed still holds: an already-cancelled
ticket is answered `AlreadyCancelled` with the store untouched, a live
ticket is refunded by the first cancel, and a second cancel of the same
ticket is answered `AlreadyCancelled` with the store untouched — exactly
one refund. -/
theorem cancel_single_refund (now now2 : ℚ) (creditOk dbOk2 creditOk2 : Bool)
    (st : St) (tid : ℕ) (t : TicketRow)
    (hfind : st.tickets.find? (fun x => x.tid == tid) = some t) :
    (t.cancelled = true →
        api_cancel_ticket now true creditOk st tid = (.alreadyCancelled, st)) ∧
    (t.cancelled = false →
        (api_cancel_ticket now true creditOk st tid).1
          = .ok (t.fare * (if 24 * 60 * 60 ≤ (t.travelDate : ℚ) * 86400 - now
                    then 8/10 else 5/10))
                (st.wallet
                  + t.fare * (if 24 * 60 * 60 ≤ (t.travelDate : ℚ) * 86400 - now
                      then 8/10 else 5/10)) ∧
        api_cancel_ticket now2 dbOk2 creditOk2
            (api_cancel_ticket now true creditOk st tid).2 tid
          = (.alreadyCancelled, (api_cancel_ticket now true creditOk st tid).2)) := by
  refine ⟨fun hc => cancel_already_cancelled_eq now true creditOk st tid t hfind hc,
    fun hc => ⟨?_, ?_⟩⟩
  · rw [cancel_success_eq now creditOk st tid t hfind hc]
  · exact cancel_already_cancelled_eq now2 dbOk2 creditOk2 _ tid
      { t with cancelled := true }
      (cancel_success_find now creditOk st tid t hfind hc) rfl

/-- Witness for C5 (amended): one live ticket; the second cancel is
answered `AlreadyCancelled` and changes nothing. -/
theorem cancel_single_refund_witness :
    api_cancel_ticket 10 true true
        (api_cancel_ticket 0 true true
          ⟨100, [⟨1, "a", "b", 1, 45, 2, 0, false⟩], 2, 0, false, 50⟩ 1).2 1
      = (.alreadyCancelled,
         (api_cancel_ticket 0 true true
           ⟨100, [⟨1, "a", "b", 1, 45, 2, 0, false⟩], 2, 0, false, 50⟩ 1).2) :=
  ((cancel_single_refund 0 10 true true true
      ⟨100, [⟨1, "a", "b", 1, 45, 2, 0, false⟩], 2, 0, false, 50⟩ 1
      ⟨1, "a", "b", 1, 45, 2, 0, false⟩ rfl).2 rfl).2

/-- C3 counterexample: `api_cancel_ticket` persists the cancelled flag
first and then credits the refund with a separate, unchecked write.
With the credit write failing, the post-call store has the ticket
cancelled while the wallet still holds the pre-call 100 — and the
caller is even told the new balance is 136. -/
theorem cancel_without_refund_counterexample :
    api_cancel_ticket 0 true false
        ⟨100, [⟨1, "a", "b", 1, 45, 2, 0, false⟩], 2, 0, false, 50⟩ 1
      = (.ok 36 136,
         ⟨100, [⟨1, "a", "b", 1, 45, 2, 0, true⟩], 2, 0, false, 50⟩) := by
  rw [cancel_success_eq 0 false
    ⟨100, [⟨1, "a", "b", 1, 45, 2, 0, false⟩], 2, 0, false, 50⟩ 1
    ⟨1, "a", "b", 1, 45, 2, 0, false⟩ rfl rfl]
  norm_num [cancelFlag, cancelUpdateWhere]

/-- C3 (amended): the cancel flag and the refund credit are two separate
writes, flag first, the credit's result unchecked.  When the credit
write succeeds, the post-call store shows the ticket cancelled and the
refund credited together; when the credit write fails, the post-call
store shows the ticket cancelled with the balance unchanged. -/
theorem cancel_flag_then_credit (now : ℚ) (st : St) (tid : ℕ) (t : TicketRow)
    (hfind : st.tickets.find? (fun x => x.tid == tid) = some t)
    (hc : t.cancelled = false) :
    ((api_cancel_ticket now true true st tid).2).wallet
        = st.wallet
          + t.fare * (if 24 * 60 * 60 ≤ (t.travelDate : ℚ) * 86400 - now
              then 8/10 else 5/10) ∧
    ((api_cancel_ticket now true true st tid).2).tickets.find?
        (fun x => x.tid == tid) = some { t with cancelled := true } ∧
    ((api_cancel_ticket now true false st tid).2).wallet = st.wallet ∧
    ((api_cancel_ticket now true false st tid).2).tickets.find?
        (fun x => x.tid == tid) = some { t with cancelled := true } := by
  refine ⟨?_, cancel_success_find now true st tid t hfind hc, ?_,
    cancel_success_find now false st tid t hfind hc⟩
  · rw [cancel_success_eq now true st tid t hfind hc]
    simp
  · rw [cancel_success_eq now false st tid t hfind hc]
    simp

/-- Witness for C3 (amended): live ticket with fare 45 on day 2,
cancelled at time 0. -/
theorem cancel_flag_then_credit_witness :
    ((api_cancel_ticket 0 true true
        ⟨40, [⟨7, "x", "y", 2, 45, 2, 0, false⟩], 8, 0, false, 50⟩ 7).2).wallet
        = 40 + 45 * (if (24 * 60 * 60 : ℚ) ≤ ((2 : ℤ) : ℚ) * 86400 - 0
            then 8/10 else 5/10) ∧
    ((api_cancel_ticket 0 true true
        ⟨40, [⟨7, "x", "y", 2, 45, 2, 0, false⟩], 8, 0, false, 50⟩ 7).2).tickets.find?
        (fun x => x.tid == 7) = some ⟨7, "x", "y", 2, 45, 2, 0, true⟩ ∧
    ((api_cancel_ticket 0 true false
        ⟨40, [⟨7, "x", "y", 2, 45, 2, 0, false⟩], 8, 0, false, 50⟩ 7).2).wallet = 40 ∧
    ((api_cancel_ticket 0 true false
        ⟨40, [⟨7, "x", "y", 2, 45, 2, 0, false⟩], 8, 0, false, 50⟩ 7).2).tickets.find?
        (fun x => x.tid == 7) = some ⟨7, "x", "y", 2, 45, 2, 0, true⟩ :=
  cancel_flag_then_credit 0
    ⟨40, [⟨7, "x", "y", 2, 45, 2, 0, false⟩], 8, 0, false, 50⟩ 7
    ⟨7, "x", "y", 2, 45, 2, 0, false⟩ rfl rfl

/-- With at least one passenger the computed fare is non-negative. -/
theorem fare_nonneg (stations : List (String × ℚ × ℚ)) (sqrtFn : ℚ → ℚ)
    (source destination : String) (p hour : ℤ) (hp : 1 ≤ p) :
    0 ≤ (calculate_dynamic_fare stations sqrtFn source destination p hour).1 := by
  have hp0 : (0 : ℚ) ≤ (p : ℚ) := by exact_mod_cast le_trans zero_le_one hp
  unfold calculate_dynamic_fare
  cases hs : get_station_location stations source with
  | none =>
    cases hd : get_station_location stations destination <;>
      exact mul_nonneg (by norm_num) hp0
  | some l1 =>
    cases hd : get_station_location stations destination with
    | none => exact mul_nonneg (by norm_num) hp0
    | some l2 =>
      have h10 : (10 : ℚ) ≤ singleFareOf (baseCostOf (distOf sqrtFn l1 l2) hour) :=
        le_max_left _ _
      exact mul_nonneg (le_trans (by norm_num) h10) hp0

/-- `cancelFlag` never changes the fare. -/
theorem cancelFlag_fare (tid : ℕ) (t : TicketRow) :
    (cancelFlag tid t).fare = t.fare := by
  unfold cancelFlag
  split <;> rfl

/-- Booking preserves the monetary invariant. -/
theorem book_preserves (stations : List (String × ℚ × ℚ)) (sqrtFn : ℚ → ℚ)
    (hour today : ℤ) (dOk iOk rOk : Bool) (st : St)
    (source destination : String) (p : ℤ) (td : Option ℤ)
    (h : BalanceInv st) :
    BalanceInv (api_book_ticket stations sqrtFn hour today dOk iOk rOk st
      source destination p td).2 := by
  obtain ⟨hw, hcard, hfares⟩ := h
  simp only [api_book_ticket]
  split
  · exact ⟨hw, hcard, hfares⟩
  split
  · exact ⟨hw, hcard, hfares⟩
  split
  · exact ⟨hw, hcard, hfares⟩
  rename_i hpass
  split
  · exact ⟨hw, hcard, hfares⟩
  rename_i travel_date
  split
  · exact ⟨hw, hcard, hfares⟩
  split
  · exact ⟨hw, hcard, hfares⟩
  rename_i hfle
  have hp1 : 1 ≤ p := by
    push_neg at hpass
    exact hpass.1
  have hf0 : 0 ≤ (calculate_dynamic_fare stations sqrtFn source destination p hour).1 :=
    fare_nonneg stations sqrtFn source destination p hour hp1
  have hnb : 0 ≤ st.wallet
      - (calculate_dynamic_fare stations sqrtFn source destination p hour).1 :=
    sub_nonneg.mpr (not_lt.mp hfle)
  split
  · exact ⟨hw, hcard, hfares⟩
  split
  · refine ⟨hnb, hcard, ?_⟩
    intro t ht
    rcases List.mem_append.mp ht with hmem | hmem
    · exact hfares t hmem
    · rw [List.mem_singleton.mp hmem]
      exact hf0
  · split
    · exact ⟨hw, hcard, hfares⟩
    · exact ⟨hnb, hcard, hfares⟩

/-- Cancellation preserves the monetary invariant. -/
theorem cancel_preserves (now : ℚ) (dbOk creditOk : Bool) (st : St)
    (tid : ℕ) (h : BalanceInv st) :
    BalanceInv (api_cancel_ticket now dbOk creditOk st tid).2 := by
  obtain ⟨hw, hcard, hfares⟩ := h
  cases hfind : st.tickets.find? (fun x => x.tid == tid) with
  | none =>
    simp only [api_cancel_ticket, hfind]
    exact ⟨hw, hcard, hfares⟩
  | some t =>
    by_cases hc : t.cancelled = true
    · rw [cancel_already_cancelled_eq now dbOk creditOk st tid t hfind hc]
      exact ⟨hw, hcard, hfares⟩
    · have hcf : t.cancelled = false := by simpa using hc
      have hmapped : ∀ x ∈ st.tickets.map (cancelFlag tid), 0 ≤ x.fare := by
        intro x hx
        rcases List.mem_map.mp hx with ⟨y, hy, rfl⟩
        rw [cancelFlag_fare]
        exact hfares y hy
      cases dbOk with
      | false =>
        have hres : api_cancel_ticket now false creditOk st tid
            = (.dbCancelFailed, st) := by
          simp [api_cancel_ticket, hfind, hcf, db_cancel_ticket]
        rw [hres]
        exact ⟨hw, hcard, hfares⟩
      | true =>
        rw [cancel_success_eq now creditOk st tid t hfind hcf]
        have htf : 0 ≤ t.fare := hfares t (List.mem_of_find?_eq_some hfind)
        have hrate : (0 : ℚ) ≤ (if 24 * 60 * 60 ≤ (t.travelDate : ℚ) * 86400 - now
            then (8:ℚ)/10 else 5/10) := by
          split <;> norm_num
        have hrefund : 0 ≤ t.fare
            * (if 24 * 60 * 60 ≤ (t.travelDate : ℚ) * 86400 - now
                then (8:ℚ)/10 else 5/10) := mul_nonneg htf hrate
        refine ⟨?_, hcard, hmapped⟩
        show 0 ≤ (if creditOk = true then _ else st.wallet)
        split
        · linarith
        · exact hw

/-- A card debit keeps both the wallet and the card non-negative. -/
theorem card_deduct_nonneg (wdb : Bool) (s : CardSt) (fare : ℚ)
    (hw : 0 ≤ s.wallet) (hc : 0 ≤ s.card) :
    0 ≤ (card_deduct wdb s fare).1.wallet ∧
    0 ≤ (card_deduct wdb s fare).1.card := by
  have h100 : (100 : ℚ) ≤ max (s.minBalanceThreshold * 2) 100 :=
    le_max_right _ _
  simp only [card_deduct, card_try_auto_recharge, user_deduct_from_wallet]
  split
  · exact ⟨hw, hc⟩
  rename_i hcf
  have hcf0 : 0 ≤ s.card - fare := sub_nonneg.mpr (not_lt.mp hcf)
  split
  · split
    · rename_i hge
      rw [if_neg (not_lt.mpr hge)]
      cases wdb
      · simp only [Bool.false_eq_true, if_false]
        exact ⟨hw, hcf0⟩
      · simp only [if_true]
        refine ⟨sub_nonneg.mpr hge, ?_⟩
        show (0:ℚ) ≤ s.card - fare + _
        linarith
    · exact ⟨hw, hcf0⟩
  · exact ⟨hw, hcf0⟩

/-- A card recharge keeps both balances non-negative and leaves the
wallet untouched. -/
theorem card_recharge_nonneg (dbOk : Bool) (s : CardSt) (amount : ℚ)
    (hw : 0 ≤ s.wallet) (hc : 0 ≤ s.card) :
    0 ≤ (card_recharge dbOk s amount).1.wallet ∧
    0 ≤ (card_recharge dbOk s amount).1.card := by
  unfold card_recharge
  split
  · exact ⟨hw, hc⟩
  rename_i hpos
  split
  · exact ⟨hw, by simp; linarith [not_le.mp hpos]⟩
  · exact ⟨hw, hc⟩

/-- Every single operation preserves the monetary invariant. -/
theorem step_preserves (st : St) (op : Op) (h : BalanceInv st) :
    BalanceInv (step st op) := by
  obtain ⟨hw, hcard, hfares⟩ := h
  cases op with
  | book stations sqrtFn hour today dOk iOk rOk source destination p td =>
    exact book_preserves stations sqrtFn hour today dOk iOk rOk st
      source destination p td ⟨hw, hcard, hfares⟩
  | cancel tid now dbOk creditOk =>
    exact cancel_preserves now dbOk creditOk st tid ⟨hw, hcard, hfares⟩
  | rechargeWallet amount dbOk =>
    refine ⟨?_, hcard, hfares⟩
    simp only [step, api_recharge_wallet]
    split
    · exact hw
    rename_i hpos
    split
    · simp
      linarith [not_le.mp hpos]
    · exact hw
  | rechargeCard amount dbOk =>
    have hcr := card_recharge_nonneg dbOk st.cardSt amount hw hcard
    exact ⟨hcr.1, hcr.2, hfares⟩
  | debitCard fare walletDbOk =>
    have hcd := card_deduct_nonneg walletDbOk st.cardSt fare hw hcard
    exact ⟨hcd.1, hcd.2, hfares⟩

/-- C1: balance non-negativity.  From any store satisfying the
invariant (non-negative wallet and card balances, non-negative stored
fares), every sequence of book / cancel / wallet-recharge /
card-recharge / card-debit operations — with arbitrary per-call inputs
and arbitrary database-write outcomes — leads only to states satisfying
it; in particular no balance ever becomes negative. -/
theorem balance_invariant (st : St) (ops : List Op) (h : BalanceInv st) :
    BalanceInv (run st ops) := by
  induction ops generalizing st with
  | nil => exact h
  | cons op rest ih =>
    simp only [run, List.foldl_cons]
    exact ih (step st op) (step_preserves st op h)

/-- Witness for C1: a concrete initial store and a concrete operation
sequence (recharge, booking, card debit with auto-recharge, cancel). -/
theorem balance_invariant_witness :
    BalanceInv (run ⟨100, [], 1, 40, true, 50⟩
      [Op.rechargeWallet 50 true,
       Op.book [] (fun q => q) 12 0 true true true "a" "b" 1 (some 1),
       Op.debitCard 5 true,
       Op.cancel 1 0 true true]) :=
  balance_invariant ⟨100, [], 1, 40, true, 50⟩
    [Op.rechargeWallet 50 true,
     Op.book [] (fun q => q) 12 0 true true true "a" "b" 1 (some 1),
     Op.debitCard 5 true,
     Op.cancel 1 0 true true]
    ⟨by norm_num, by norm_num, by simp⟩
